import Mathlib

/-!
Verification development for the customer-service analysis pipeline
(`customer_service_analysis.py`, `run_analysis.py`).

The pipeline loads two tabular record sets (errands/contacts and orders),
normalizes the contact order token from base 36 to a decimal id string,
inner-joins the two sets on that id, reclassifies cancellation/change flags,
and runs a collection of aggregation modules producing percentage
distributions and top-N rankings.

The embedding below models tables as `List` of records, pandas numeric
columns as `ℚ`, nullable columns as `Option`, and the base-36 decoding of
`str(int(x, 36))` (Python `int` parsing with sign, surrounding whitespace
and single underscores between digits) as an explicit `Option Int` parser.
-/

namespace CSA

/-! ## Base-36 decoding (Python `int(x, 36)` as used at
`errands_df['order_number'].apply(lambda x: str(int(x, 36)))`) -/

/-- Value of one base-36 digit, `none` when the character is not a digit.
Python `int(_, 36)` accepts `0-9`, `a-z` and `A-Z`. -/
def digit_val_36 (c : Char) : Option Nat :=
  if '0' ≤ c ∧ c ≤ '9' then some (c.toNat - '0'.toNat)
  else if 'a' ≤ c ∧ c ≤ 'z' then some (c.toNat - 'a'.toNat + 10)
  else if 'A' ≤ c ∧ c ≤ 'Z' then some (c.toNat - 'A'.toNat + 10)
  else none

/-- Membership in the plain base-36 alphabet. -/
def base36_char (c : Char) : Bool :=
  (digit_val_36 c).isSome

/-- Parse the remaining digits after the first one.  Mirrors the Python
`int` literal grammar: a single underscore is allowed between two digits
(`int("1_2", 36)` succeeds), while a trailing, leading or doubled
underscore fails.  `pu` records whether the previous character was an
underscore (which must then be followed by a digit). -/
def parse_rest (acc : Nat) (pu : Bool) : List Char → Option Nat
  | [] => if pu then none else some acc
  | c :: cs =>
    if c = '_' then
      if pu then none else parse_rest acc true cs
    else
      match digit_val_36 c with
      | some d => parse_rest (acc * 36 + d) false cs
      | none => none

/-- Parse a non-empty unsigned digit string (first character must be a
digit, not an underscore). -/
def parse_unsigned (cs : List Char) : Option Nat :=
  match cs with
  | [] => none
  | c :: rest =>
    match digit_val_36 c with
    | some d => parse_rest d false rest
    | none => none

/-- Strip surrounding whitespace, as Python `int` does. -/
def strip_ws (cs : List Char) : List Char :=
  ((cs.dropWhile Char.isWhitespace).reverse.dropWhile Char.isWhitespace).reverse

/-- Sign handling of Python `int`: an optional leading `+` or `-` before
the digit string. -/
def int36_core (c : Char) (rest : List Char) : Option Int :=
  if c = '+' then (parse_unsigned rest).map (fun n => (n : Int))
  else if c = '-' then (parse_unsigned rest).map (fun n => -(n : Int))
  else (parse_unsigned (c :: rest)).map (fun n => (n : Int))

/-- Python `int(x, 36)`: optional surrounding whitespace, optional sign,
then base-36 digits with single underscores allowed between digits.
`none` models `ValueError`. -/
def int36 (cs0 : List Char) : Option Int :=
  match strip_ws cs0 with
  | [] => none
  | c :: rest => int36_core c rest

/-- `str(int(x, 36))`: the decoded order number in decimal string form. -/
def decode_order_number (s : String) : Option String :=
  (int36 s.toList).map (fun i => toString i)

/-- Plain positional base-36 value of a digit string (used to state what
the decoder returns on tokens made of base-36 digits only). -/
def val36 (cs : List Char) : Nat :=
  cs.foldl (fun a c => a * 36 + (digit_val_36 c).getD 0) 0

/-! ## Data model -/

/-- One errand (customer-service contact) row, with the columns the
pipeline reads.  `created` is modeled as hours since a Monday-midnight
epoch; `errand_action` is a nullable delimiter-structured string. -/
structure ContactRecord where
  order_number : String
  created : Nat
  errand_channel : Option String
  errand_category : Option String
  errand_type : Option String
  errand_action : Option (List Char)
deriving DecidableEq

/-- One order row, with the columns the pipeline reads. -/
structure OrderRecord where
  order_id : String
  order_created_at : Nat
  Origin_Country : Option String
  Destination_Country : Option String
  Journey_Type_ID : Option String
  booking_system_source_type : Option String
  Is_Canceled : Bool
  cancel_reason : Option String
  Is_Changed : Bool
  change_reason : Option String
  Revenue : ℚ
  Customer_Group_Type : Option String
deriving DecidableEq

/-- Fixed Monday-first weekday domain (`day_order` in the source). -/
def day_order : List String :=
  ["Monday", "Tuesday", "Wednesday", "Thursday", "Friday", "Saturday", "Sunday"]

/-- `dt.day_name()` on the hour-resolution timestamp model. -/
def day_name (t : Nat) : String :=
  day_order.getD (t / 24 % 7) "Monday"

/-- One row of the merged table: the union of the contact and order
columns plus the derived columns.  `errand_action_category` and
`hour_of_day` start as `none` (the columns do not exist yet when the
join is built) and are written later by metric modules. -/
structure MergedRecord where
  order_number : String
  errand_created_at : Nat
  errand_channel : Option String
  errand_category : Option String
  errand_type : Option String
  errand_action : Option (List Char)
  day_of_week : String
  order_id : String
  order_created_at : Nat
  Origin_Country : Option String
  Destination_Country : Option String
  Journey_Type_ID : Option String
  booking_system_source_type : Option String
  Is_Canceled : Bool
  cancel_reason : Option String
  Is_Changed : Bool
  change_reason : Option String
  Revenue : ℚ
  Customer_Group_Type : Option String
  errand_action_category : Option (List Char)
  hour_of_day : Option Nat
deriving DecidableEq

/-- The merged row produced for a matching (contact, order) pair. -/
def mk_merged (c : ContactRecord) (o : OrderRecord) : MergedRecord where
  order_number := c.order_number
  errand_created_at := c.created
  errand_channel := c.errand_channel
  errand_category := c.errand_category
  errand_type := c.errand_type
  errand_action := c.errand_action
  day_of_week := day_name c.created
  order_id := o.order_id
  order_created_at := o.order_created_at
  Origin_Country := o.Origin_Country
  Destination_Country := o.Destination_Country
  Journey_Type_ID := o.Journey_Type_ID
  booking_system_source_type := o.booking_system_source_type
  Is_Canceled := o.Is_Canceled
  cancel_reason := o.cancel_reason
  Is_Changed := o.Is_Changed
  change_reason := o.change_reason
  Revenue := o.Revenue
  Customer_Group_Type := o.Customer_Group_Type
  errand_action_category := none
  hour_of_day := none

/-- `pd.merge(errands, orders, left_on='order_number', right_on='order_id',
how='inner')`: every contact is paired with every order whose id equals
its (already decoded) order number; unmatched rows on either side are
dropped.  Left row order is preserved. -/
def joinRecords (contacts : List ContactRecord) (orders : List OrderRecord) :
    List MergedRecord :=
  contacts.flatMap (fun c =>
    (orders.filter (fun o => o.order_id = c.order_number)).map (fun o => mk_merged c o))

/-- Decode every contact's order number; a single malformed token makes
the whole normalization fail (the Python `apply` lets the `ValueError`
escape, so no row is silently dropped). -/
def normalize_contacts : List ContactRecord → Option (List ContactRecord)
  | [] => some []
  | c :: cs =>
    match decode_order_number c.order_number with
    | none => none
    | some d =>
      match normalize_contacts cs with
      | none => none
      | some tl => some ({ c with order_number := d } :: tl)

/-- `_preprocess_data`: normalize the contact tokens, then inner-join. -/
def _preprocess_data (errands : List ContactRecord) (orders : List OrderRecord) :
    Option (List MergedRecord) :=
  (normalize_contacts errands).map (fun ne => joinRecords ne orders)

/-! ## Shared counting / percentage helpers -/

/-- pandas `value_counts` (with default `dropna=True`, applied after
`filterMap` has removed the nulls): the list of distinct values with
their multiplicities.  The ordering of the keys plays no role in any
property below. -/
def value_counts {α : Type} [DecidableEq α] (l : List α) : List (α × Nat) :=
  l.dedup.map (fun k => (k, l.count k))

/-- `counts[k] / base * 100`.  In the `ℚ` model a zero base yields 0
(the explicit zero marker; pandas produces a NaN/inf marker instead of
raising). -/
def pct_of (c base : ℚ) : ℚ := c / base * 100

/-- `.round(2)` on a percentage value. -/
def roundQ2 (x : ℚ) : ℚ := (round (x * 100) : ℤ) / 100

/-- Sum of the values of a keyed series. -/
def series_sum {κ : Type} (l : List (κ × ℚ)) : ℚ := (l.map Prod.snd).sum

/-- Descending-by-value comparison on a keyed series. -/
def by_value_desc {κ : Type} (a b : κ × ℚ) : Prop := b.2 ≤ a.2

instance {κ : Type} : DecidableRel (@by_value_desc κ) :=
  fun a b => inferInstanceAs (Decidable (b.2 ≤ a.2))

instance {κ : Type} : IsTotal (κ × ℚ) by_value_desc :=
  ⟨fun a b => le_total b.2 a.2⟩

instance {κ : Type} : IsTrans (κ × ℚ) by_value_desc :=
  ⟨fun _ _ _ h1 h2 => le_trans h2 h1⟩

/-- `series.sort_values(ascending=False)` modeled as a stable insertion
sort.  numpy's default quicksort (introsort) coincides with an insertion
sort — including the order in which tied values surface — only for
arrays below its small-array cutoff (fewer than 16 elements), such as the
7-entry weekday series; for longer series its partition step can reorder
ties, so from this model only order-insensitive consequences (being a
descending-sorted permutation, hence delivering the n largest values)
are asserted about the program, and tie-order consequences are drawn
only for series within that cutoff. -/
def sort_values_desc {κ : Type} (l : List (κ × ℚ)) : List (κ × ℚ) :=
  List.insertionSort by_value_desc l

/-- `series.sort_values(ascending=False).head(n)`. -/
def top_n {κ : Type} (n : Nat) (l : List (κ × ℚ)) : List (κ × ℚ) :=
  (sort_values_desc l).take n

/-! ## Volume module (`analyze_contacts_per_order`) -/

/-- `merged_df.groupby('order_number').size()`. -/
def contacts_per_order (df : List MergedRecord) : List (String × Nat) :=
  (df.map (fun r => r.order_number)).dedup.map
    (fun k => (k, (df.filter (fun r => r.order_number = k)).length))

/-- `contacts_per_order.mean()`; `none` models the NaN produced on an
empty table. -/
def average_contacts (df : List MergedRecord) : Option ℚ :=
  match contacts_per_order df with
  | [] => none
  | l => some (((l.map (fun kc => (kc.2 : ℚ))).sum) / (l.length : ℚ))

/-! ## Channel module (`analyze_channel_distribution`) -/

/-- `merged_df['errand_channel'].value_counts()` (nulls dropped). -/
def channel_distribution (df : List MergedRecord) : List (String × Nat) :=
  value_counts (df.filterMap (fun r => r.errand_channel))

/-- `channel_distribution / len(merged_df) * 100`: the denominator is the
full merged row count, including rows with a null channel. -/
def channel_percentages (df : List MergedRecord) : List (String × ℚ) :=
  (channel_distribution df).map (fun kc => (kc.1, pct_of (kc.2 : ℚ) (df.length : ℚ)))

/-! ## Category / type / action module (`analyze_errand_categories`) -/

/-- `merged_df['errand_category'].value_counts()`. -/
def category_distribution (df : List MergedRecord) : List (String × Nat) :=
  value_counts (df.filterMap (fun r => r.errand_category))

/-- `category_distribution / category_distribution.sum() * 100`. -/
def category_percentage (df : List MergedRecord) : List (String × ℚ) :=
  (category_distribution df).map
    (fun kc => (kc.1, pct_of (kc.2 : ℚ) (((category_distribution df).map Prod.snd).sum : ℚ)))

/-- `categorize_errand_action`: null maps to null, otherwise the
substring before the first `:`, then before the first `.` within it. -/
def categorize_errand_action (action : Option (List Char)) : Option (List Char) :=
  match action with
  | none => none
  | some s => some ((s.takeWhile (fun c => c ≠ ':')).takeWhile (fun c => c ≠ '.'))

/-- The module's write of the derived `errand_action_category` column
(`merged_df['errand_action_category'] = ...apply(categorize_errand_action)`). -/
def write_action_category (r : MergedRecord) : MergedRecord :=
  { r with errand_action_category := categorize_errand_action r.errand_action }

/-- The merged table after `analyze_errand_categories` has run: the
derived action-category column has been written. -/
def analyze_errand_categories_table (df : List MergedRecord) : List MergedRecord :=
  df.map write_action_category

/-- `merged_df['errand_action_category'].value_counts()` (nulls dropped). -/
def action_counts (df : List MergedRecord) : List (List Char × Nat) :=
  value_counts ((analyze_errand_categories_table df).filterMap
    (fun r => r.errand_action_category))

/-- `(action_counts / len(merged_df) * 100).round(2)`: the denominator is
the full merged row count, including rows with an absent action. -/
def action_percentages (df : List MergedRecord) : List (List Char × ℚ) :=
  (action_counts df).map
    (fun kc => (kc.1, roundQ2 (pct_of (kc.2 : ℚ) (df.length : ℚ))))

/-- The action distribution as the specification words it: the base is
the set of action-bearing rows, rows with an absent action excluded from
the denominator.  Stated only to be compared against
`action_percentages`, which is what the code computes. -/
def action_percentages_spec_base (df : List MergedRecord) : List (List Char × ℚ) :=
  (action_counts df).map
    (fun kc => (kc.1, roundQ2 (pct_of (kc.2 : ℚ)
      (((analyze_errand_categories_table df).filterMap
        (fun r => r.errand_action_category)).length : ℚ))))

/-! ## Temporal module (`analyze_time_patterns`) -/

/-- The module's writes of derived columns: `day_of_week` is rebuilt as
an ordered categorical over the same day names, and `hour_of_day` is
created from the timestamp. -/
def write_time_columns (r : MergedRecord) : MergedRecord :=
  { r with day_of_week := day_name r.errand_created_at,
           hour_of_day := some (r.errand_created_at % 24) }

/-- The merged table after `analyze_time_patterns` has run. -/
def analyze_time_patterns_table (df : List MergedRecord) : List MergedRecord :=
  df.map write_time_columns

/-- `merged_df.groupby('day_of_week').size()` over the ordered categorical
day domain: one entry per weekday, Monday first, zero counts included. -/
def day_analysis (df : List MergedRecord) : List (String × Nat) :=
  day_order.map (fun d =>
    (d, ((analyze_time_patterns_table df).filter (fun r => r.day_of_week = d)).length))

/-- `(day_analysis / day_analysis.sum() * 100).round(2)`. -/
def day_percentages (df : List MergedRecord) : List (String × ℚ) :=
  (day_analysis df).map
    (fun kc => (kc.1, roundQ2 (pct_of (kc.2 : ℚ) (((day_analysis df).map Prod.snd).sum : ℚ))))

/-- `day_percentages.sort_values(ascending=False).head(2)`. -/
def top_weekdays (df : List MergedRecord) : List (String × ℚ) :=
  top_n 2 (day_percentages df)

/-- The order in which weekday keys first appear in the merged rows
(used to state the claimed tie-break). -/
def first_appearance_days (df : List MergedRecord) : List String :=
  df.foldl (fun acc r => if r.day_of_week ∈ acc then acc else acc ++ [r.day_of_week]) []

/-! ## Travel module (`analyze_travel_details`), journey and booking parts -/

/-- `merged_df['Journey_Type_ID'].value_counts()` normalized by its own
total and rounded. -/
def journey_percentage (df : List MergedRecord) : List (String × ℚ) :=
  (value_counts (df.filterMap (fun r => r.Journey_Type_ID))).map
    (fun kc => (kc.1, roundQ2 (pct_of (kc.2 : ℚ)
      (((value_counts (df.filterMap (fun r => r.Journey_Type_ID))).map Prod.snd).sum : ℚ))))

/-- `merged_df['booking_system_source_type'].value_counts()` normalized by
its own total and rounded. -/
def booking_system_percentage (df : List MergedRecord) : List (String × ℚ) :=
  (value_counts (df.filterMap (fun r => r.booking_system_source_type))).map
    (fun kc => (kc.1, roundQ2 (pct_of (kc.2 : ℚ)
      (((value_counts (df.filterMap (fun r => r.booking_system_source_type))).map Prod.snd).sum : ℚ))))

/-! ## Cancellation / change modules (`analyze_cancellations`, `analyze_changes`) -/

/-- The flag update at the top of `analyze_cancellations`: rows with
`Is_Canceled == 0` and `cancel_reason == "Schedule Change - refund"` get
`Is_Canceled = 1`. -/
def reclassify_cancel (r : MergedRecord) : MergedRecord :=
  if r.Is_Canceled = false ∧ r.cancel_reason = some "Schedule Change - refund" then
    { r with Is_Canceled := true }
  else r

/-- The two-element sentinel set in `analyze_changes`. -/
def change_reason_sentinels : List String :=
  ["Schedule change: Primary Alternative", "Cancel part of order"]

/-- The flag update at the top of `analyze_changes`: rows with
`Is_Changed == 0` and a change reason in the sentinel set get
`Is_Changed = 1`. -/
def reclassify_change (r : MergedRecord) : MergedRecord :=
  if r.Is_Changed = false ∧ (∃ s ∈ change_reason_sentinels, r.change_reason = some s) then
    { r with Is_Changed := true }
  else r

/-- Both flag updates applied to one row. -/
def reclassify_record (r : MergedRecord) : MergedRecord :=
  reclassify_change (reclassify_cancel r)

/-- The reclassification stage over the whole merged table. -/
def reclassify (df : List MergedRecord) : List MergedRecord :=
  df.map reclassify_record

/-- `merged_df[merged_df['Is_Canceled'] == 1]`. -/
def canceled_rows (df : List MergedRecord) : List MergedRecord :=
  df.filter (fun r => r.Is_Canceled = true)

/-- `cancel_reasons / len(canceled) * 100` rounded: reason distribution
over the canceled subpopulation. -/
def cancel_percentages (df : List MergedRecord) : List (String × ℚ) :=
  (value_counts ((canceled_rows df).filterMap (fun r => r.cancel_reason))).map
    (fun kc => (kc.1, roundQ2 (pct_of (kc.2 : ℚ) ((canceled_rows df).length : ℚ))))

/-- `merged_df[merged_df['Is_Changed'] == 1]`. -/
def changed_rows (df : List MergedRecord) : List MergedRecord :=
  df.filter (fun r => r.Is_Changed = true)

/-- `change_reasons / len(changed) * 100` rounded. -/
def change_percentages (df : List MergedRecord) : List (String × ℚ) :=
  (value_counts ((changed_rows df).filterMap (fun r => r.change_reason))).map
    (fun kc => (kc.1, roundQ2 (pct_of (kc.2 : ℚ) ((changed_rows df).length : ℚ))))

/-! ## Financial module (`analyze_financial_patterns`) -/

/-- Contact share per customer group, normalized by its own total. -/
def customer_group_percentages (df : List MergedRecord) : List (String × ℚ) :=
  (value_counts (df.filterMap (fun r => r.Customer_Group_Type))).map
    (fun kc => (kc.1, pct_of (kc.2 : ℚ)
      (((value_counts (df.filterMap (fun r => r.Customer_Group_Type))).map Prod.snd).sum : ℚ)))

/-- `merged_df.groupby('Customer_Group_Type')['Revenue'].sum()`. -/
def revenue_by_group (df : List MergedRecord) : List (String × ℚ) :=
  (df.filterMap (fun r => r.Customer_Group_Type)).dedup.map
    (fun k => (k, ((df.filter (fun r => r.Customer_Group_Type = some k)).map
      (fun r => r.Revenue)).sum))

/-- Revenue share per customer group, normalized by total revenue. -/
def revenue_percentages (df : List MergedRecord) : List (String × ℚ) :=
  (revenue_by_group df).map
    (fun kc => (kc.1, pct_of kc.2 (((revenue_by_group df).map Prod.snd).sum)))

/-! ## Remaining distribution outputs (volume, type, hour, route) -/

/-- `contacts_per_order.value_counts() / len(contacts_per_order) * 100`:
the distribution of contact-counts over orders, base = number of distinct
orders with at least one contact. -/
def contacts_per_order_percentages (df : List MergedRecord) : List (Nat × ℚ) :=
  (value_counts ((contacts_per_order df).map Prod.snd)).map
    (fun kc => (kc.1, pct_of (kc.2 : ℚ) ((contacts_per_order df).length : ℚ)))

/-- The (category, type) pairs entering
`groupby('errand_category')['errand_type'].value_counts()`: rows with a
null category are dropped by the groupby and rows with a null type by
`value_counts`. -/
def type_pairs (df : List MergedRecord) : List (String × String) :=
  df.filterMap (fun r =>
    match r.errand_category, r.errand_type with
    | some c, some t => some (c, t)
    | _, _ => none)

/-- `type_distribution / type_distribution.sum() * 100`. -/
def type_percentage (df : List MergedRecord) : List ((String × String) × ℚ) :=
  (value_counts (type_pairs df)).map
    (fun kc => (kc.1, pct_of (kc.2 : ℚ)
      (((value_counts (type_pairs df)).map Prod.snd).sum : ℚ)))

/-- The (origin, destination) pairs entering the route groupby (rows
with either country null are dropped by the groupby). -/
def route_pairs (df : List MergedRecord) : List (String × String) :=
  df.filterMap (fun r =>
    match r.Origin_Country, r.Destination_Country with
    | some o, some d => some (o, d)
    | _, _ => none)

/-- `(route_count / route_count.sum() * 100).round(2)`. -/
def route_percentages (df : List MergedRecord) : List ((String × String) × ℚ) :=
  (value_counts (route_pairs df)).map
    (fun kc => (kc.1, roundQ2 (pct_of (kc.2 : ℚ)
      (((value_counts (route_pairs df)).map Prod.snd).sum : ℚ))))

/-- `merged_df.groupby('hour_of_day').size()` (observed hours only,
after the temporal module has written the hour column). -/
def hour_analysis (df : List MergedRecord) : List (Nat × Nat) :=
  value_counts ((analyze_time_patterns_table df).filterMap (fun r => r.hour_of_day))

/-- `(hour_analysis / hour_analysis.sum() * 100).round(2)`. -/
def hour_percentages (df : List MergedRecord) : List (Nat × ℚ) :=
  (hour_analysis df).map
    (fun kc => (kc.1, roundQ2 (pct_of (kc.2 : ℚ)
      (((hour_analysis df).map Prod.snd).sum : ℚ))))

/-! ## Orchestrator (`generate_all_analyses`)

The source wraps the whole sequence of module calls in one
`try ... except`: the modules run in order, building the result
dictionary, and any exception anywhere makes the method print the error
and `return None`.  A module is a possibly-failing function of the
table; `Except.error` models a raised exception. -/

/-- The body of the `try` block: run the modules in order, collecting
`(name, result)` pairs; the first raised exception aborts the sequence. -/
def run_modules {δ ρ : Type} :
    List (String × (δ → Except String ρ)) → δ → Except String (List (String × ρ))
  | [], _ => Except.ok []
  | (nm, f) :: rest, df =>
    match f df with
    | Except.error e => Except.error e
    | Except.ok r =>
      match run_modules rest df with
      | Except.error e => Except.error e
      | Except.ok tl => Except.ok ((nm, r) :: tl)

/-- `generate_all_analyses`: the single `except` handler turns any
module exception into an overall `None`; otherwise the complete bundle
is returned. -/
def generate_all_analyses {δ ρ : Type}
    (modules : List (String × (δ → Except String ρ))) (df : δ) :
    Option (List (String × ρ)) :=
  match run_modules modules df with
  | Except.ok l => some l
  | Except.error _ => none

/-! ## Full pipeline (`CustomerServiceAnalysis` construction followed by
`generate_all_analyses`, with the merged-table state threaded through the
modules in their call order) -/

/-- The result bundle, one field per module output consumed by the CLI
printer. -/
structure AnalysisBundle where
  avg_contacts : Option ℚ
  category_dist : List (String × ℚ)
  action_dist : List (List Char × ℚ)
  channel_dist : List (String × ℚ)
  day_of_week_dist : List (String × ℚ)
  top_weekdays_out : List (String × ℚ)
  journey_types : List (String × ℚ)
  booking_sources : List (String × ℚ)
  cancel_reasons_dist : List (String × ℚ)
  change_reasons_dist : List (String × ℚ)
  revenue_dist : List (String × ℚ)
  contact_dist : List (String × ℚ)
deriving DecidableEq

/-- The whole analysis on an already-merged table, with the in-place
column writes and flag reclassifications threaded in the order
`generate_all_analyses` calls the modules. -/
def analysis_bundle (df0 : List MergedRecord) : AnalysisBundle :=
  let df1 := analyze_errand_categories_table df0
  let df2 := analyze_time_patterns_table df1
  let df3 := df2.map reclassify_cancel
  let df4 := df3.map reclassify_change
  { avg_contacts := average_contacts df0
    category_dist := category_percentage df1
    action_dist := action_percentages df0
    channel_dist := channel_percentages df1
    day_of_week_dist := day_percentages df1
    top_weekdays_out := top_weekdays df1
    journey_types := journey_percentage df2
    booking_sources := booking_system_percentage df2
    cancel_reasons_dist := cancel_percentages df3
    change_reasons_dist := change_percentages df4
    revenue_dist := revenue_percentages df4
    contact_dist := customer_group_percentages df4 }

/-- End-to-end pipeline: normalization, join, and all analyses; `none`
models the run aborting on a malformed order token. -/
def run_pipeline (errands : List ContactRecord) (orders : List OrderRecord) :
    Option AnalysisBundle :=
  (_preprocess_data errands orders).map analysis_bundle

/-! ## Sample records used for concrete witnesses and counterexamples -/

/-- A default merged row whose fields individual examples override. -/
def base_merged : MergedRecord where
  order_number := "1"
  errand_created_at := 0
  errand_channel := some "chat"
  errand_category := some "booking"
  errand_type := some "general"
  errand_action := none
  day_of_week := "Monday"
  order_id := "1"
  order_created_at := 0
  Origin_Country := some "SE"
  Destination_Country := some "NO"
  Journey_Type_ID := some "1"
  booking_system_source_type := some "web"
  Is_Canceled := false
  cancel_reason := none
  Is_Changed := false
  change_reason := none
  Revenue := 0
  Customer_Group_Type := some "leisure"
  errand_action_category := none
  hour_of_day := none

/-- A not-yet-canceled row bearing the cancellation sentinel reason. -/
def sample_cancel_rec : MergedRecord :=
  { base_merged with cancel_reason := some "Schedule Change - refund" }

/-! ## Reclassification lemmas -/

lemma reclassify_cancel_cancel_reason (r : MergedRecord) :
    (reclassify_cancel r).cancel_reason = r.cancel_reason := by
  unfold reclassify_cancel; split <;> rfl

lemma reclassify_cancel_change_reason (r : MergedRecord) :
    (reclassify_cancel r).change_reason = r.change_reason := by
  unfold reclassify_cancel; split <;> rfl

lemma reclassify_cancel_is_changed (r : MergedRecord) :
    (reclassify_cancel r).Is_Changed = r.Is_Changed := by
  unfold reclassify_cancel; split <;> rfl

lemma reclassify_change_cancel_reason (r : MergedRecord) :
    (reclassify_change r).cancel_reason = r.cancel_reason := by
  unfold reclassify_change; split <;> rfl

lemma reclassify_change_change_reason (r : MergedRecord) :
    (reclassify_change r).change_reason = r.change_reason := by
  unfold reclassify_change; split <;> rfl

lemma reclassify_change_is_canceled (r : MergedRecord) :
    (reclassify_change r).Is_Canceled = r.Is_Canceled := by
  unfold reclassify_change; split <;> rfl

lemma reclassify_cancel_flag_of_reason (r : MergedRecord)
    (h : r.cancel_reason = some "Schedule Change - refund") :
    (reclassify_cancel r).Is_Canceled = true := by
  unfold reclassify_cancel
  split_ifs with hc
  · rfl
  · cases hb : r.Is_Canceled
    · exact absurd ⟨hb, h⟩ hc
    · rfl

lemma reclassify_change_flag_of_reason (r : MergedRecord) (s : String)
    (hs : s ∈ change_reason_sentinels) (h : r.change_reason = some s) :
    (reclassify_change r).Is_Changed = true := by
  unfold reclassify_change
  split_ifs with hc
  · rfl
  · cases hb : r.Is_Changed
    · exact absurd ⟨hb, s, hs, h⟩ hc
    · rfl

lemma reclassify_cancel_mono (r : MergedRecord) (h : r.Is_Canceled = true) :
    (reclassify_cancel r).Is_Canceled = true := by
  unfold reclassify_cancel; split_ifs with hc
  · rfl
  · exact h

lemma reclassify_change_mono (r : MergedRecord) (h : r.Is_Changed = true) :
    (reclassify_change r).Is_Changed = true := by
  unfold reclassify_change; split_ifs with hc
  · rfl
  · exact h

lemma reclassify_cancel_not_pending (r : MergedRecord) :
    ¬((reclassify_cancel r).Is_Canceled = false ∧
      (reclassify_cancel r).cancel_reason = some "Schedule Change - refund") := by
  rintro ⟨h1, h2⟩
  rw [reclassify_cancel_cancel_reason] at h2
  rw [reclassify_cancel_flag_of_reason r h2] at h1
  simp at h1

lemma reclassify_cancel_eq_self (r : MergedRecord)
    (h : ¬(r.Is_Canceled = false ∧ r.cancel_reason = some "Schedule Change - refund")) :
    reclassify_cancel r = r := by
  unfold reclassify_cancel
  exact if_neg h

lemma reclassify_change_eq_self (r : MergedRecord)
    (h : ¬(r.Is_Changed = false ∧ ∃ s ∈ change_reason_sentinels, r.change_reason = some s)) :
    reclassify_change r = r := by
  unfold reclassify_change
  exact if_neg h

lemma reclassify_change_of_true (r : MergedRecord) (hy : r.Is_Changed = true) :
    reclassify_change r = r :=
  reclassify_change_eq_self r (by rw [hy]; rintro ⟨h1, _⟩; simp at h1)

lemma reclassify_change_idem (r : MergedRecord) :
    reclassify_change (reclassify_change r) = reclassify_change r := by
  by_cases hc : r.Is_Changed = false ∧ ∃ s ∈ change_reason_sentinels, r.change_reason = some s
  · obtain ⟨s, hs, hr⟩ := hc.2
    exact reclassify_change_of_true _ (reclassify_change_flag_of_reason r s hs hr)
  · rw [reclassify_change_eq_self r hc, reclassify_change_eq_self r hc]

lemma reclassify_record_idem (r : MergedRecord) :
    reclassify_record (reclassify_record r) = reclassify_record r := by
  unfold reclassify_record
  have hstep : reclassify_cancel (reclassify_change (reclassify_cancel r)) =
      reclassify_change (reclassify_cancel r) :=
    reclassify_cancel_eq_self _ (by
      rw [reclassify_change_is_canceled, reclassify_change_cancel_reason]
      exact reclassify_cancel_not_pending r)
  rw [hstep, reclassify_change_idem]

/-- C1. After the reclassification has run once on the merged table, any
record whose `cancel_reason` is the sentinel "Schedule Change - refund"
has `Is_Canceled` true and any record whose `change_reason` is one of the
two change sentinels has `Is_Changed` true; the reclassification is
idempotent and never turns a true flag false. -/
theorem C1_reclassification_invariant (df : List MergedRecord) :
    (∀ r ∈ reclassify df,
      (r.cancel_reason = some "Schedule Change - refund" → r.Is_Canceled = true) ∧
      (∀ s ∈ change_reason_sentinels, r.change_reason = some s → r.Is_Changed = true)) ∧
    reclassify (reclassify df) = reclassify df ∧
    (∀ r : MergedRecord,
      (r.Is_Canceled = true → (reclassify_record r).Is_Canceled = true) ∧
      (r.Is_Changed = true → (reclassify_record r).Is_Changed = true)) := by
  refine ⟨?_, ?_, ?_⟩
  · intro r hr
    rcases List.mem_map.mp hr with ⟨r0, _, hr0⟩
    subst hr0
    constructor
    · intro h
      unfold reclassify_record at h ⊢
      rw [reclassify_change_cancel_reason, reclassify_cancel_cancel_reason] at h
      rw [reclassify_change_is_canceled]
      exact reclassify_cancel_flag_of_reason r0 h
    · intro s hs h
      unfold reclassify_record at h ⊢
      rw [reclassify_change_change_reason, reclassify_cancel_change_reason] at h
      exact reclassify_change_flag_of_reason (reclassify_cancel r0) s hs
        (by rw [reclassify_cancel_change_reason]; exact h)
  · unfold reclassify
    rw [List.map_map]
    exact List.map_congr_left (fun r _ => reclassify_record_idem r)
  · intro r
    constructor
    · intro h
      unfold reclassify_record
      rw [reclassify_change_is_canceled]
      exact reclassify_cancel_mono r h
    · intro h
      unfold reclassify_record
      exact reclassify_change_mono _ (by rw [reclassify_cancel_is_changed]; exact h)

/-- C1 witness: the sample sentinel-reason row really ends up with
`Is_Canceled` true after one reclassification pass. -/
theorem C1_reclassification_invariant_witness :
    (reclassify_record sample_cancel_rec).Is_Canceled = true :=
  ((C1_reclassification_invariant [sample_cancel_rec]).1
    (reclassify_record sample_cancel_rec) (by simp [reclassify])).1 (by rfl)

/-! ## C5: inner-join semantics and cardinality -/

/-- A normalized contact row used by concrete join examples. -/
def sample_contact : ContactRecord where
  order_number := "1"
  created := 0
  errand_channel := some "chat"
  errand_category := some "booking"
  errand_type := some "general"
  errand_action := none

/-- An order row used by concrete join examples. -/
def sample_order : OrderRecord where
  order_id := "1"
  order_created_at := 0
  Origin_Country := some "SE"
  Destination_Country := some "NO"
  Journey_Type_ID := some "1"
  booking_system_source_type := some "web"
  Is_Canceled := false
  cancel_reason := none
  Is_Changed := false
  change_reason := none
  Revenue := 0
  Customer_Group_Type := some "leisure"

/-- Two contacts referencing the same single order. -/
def c5_contacts : List ContactRecord :=
  [sample_contact, { sample_contact with errand_channel := some "email" }]

def c5_orders : List OrderRecord := [sample_order]

lemma filter_length_le_one_of_nodup (orders : List OrderRecord) (k : String)
    (h : (orders.map (fun o => o.order_id)).Nodup) :
    (orders.filter (fun o => o.order_id = k)).length ≤ 1 := by
  induction orders with
  | nil => simp
  | cons o os ih =>
    rw [List.map_cons, List.nodup_cons] at h
    by_cases hk : o.order_id = k
    · have hemp : os.filter (fun o2 => o2.order_id = k) = [] := by
        rw [List.filter_eq_nil_iff]
        intro o2 ho2 hmem
        exact h.1 (hk ▸ (of_decide_eq_true hmem) ▸ List.mem_map_of_mem (fun x => x.order_id) ho2)
      simp [List.filter_cons, hk, hemp]
    · simpa [List.filter_cons, hk] using ih h.2

/-- C5 (amended).  The join is inner: every merged row pairs a contact key
with an equal order key, so unmatched rows on either side never appear;
when the order ids are distinct the cardinality is at most the number of
contacts; and disjoint key sets give an empty join.  (The claimed bound
`min |contacts| |orders|` fails under fan-out, see the counterexample.) -/
theorem C5_inner_join (contacts : List ContactRecord) (orders : List OrderRecord) :
    (∀ m ∈ joinRecords contacts orders,
      m.order_number = m.order_id ∧
      (∃ c ∈ contacts, m.order_number = c.order_number) ∧
      (∃ o ∈ orders, m.order_id = o.order_id)) ∧
    ((orders.map (fun o => o.order_id)).Nodup →
      (joinRecords contacts orders).length ≤ contacts.length) ∧
    ((∀ c ∈ contacts, ∀ o ∈ orders, c.order_number ≠ o.order_id) →
      joinRecords contacts orders = []) := by
  refine ⟨?_, ?_, ?_⟩
  · intro m hm
    rw [joinRecords, List.mem_flatMap] at hm
    obtain ⟨c, hc, hm⟩ := hm
    rw [List.mem_map] at hm
    obtain ⟨o, ho, hmo⟩ := hm
    rw [List.mem_filter] at ho
    have hk : o.order_id = c.order_number := of_decide_eq_true ho.2
    subst hmo
    exact ⟨hk.symm, ⟨c, hc, rfl⟩, ⟨o, ho.1, rfl⟩⟩
  · intro h
    induction contacts with
    | nil => simp [joinRecords]
    | cons c cs ih =>
      rw [joinRecords, List.flatMap_cons, List.length_append, List.length_map]
      have h1 := filter_length_le_one_of_nodup orders c.order_number h
      have h2 : (cs.flatMap (fun c2 =>
          (orders.filter (fun o => o.order_id = c2.order_number)).map
            (fun o => mk_merged c2 o))).length ≤ cs.length := ih
      have h3 := Nat.add_le_add h1 h2
      simp only [List.length_cons]
      omega
  · intro h
    rw [joinRecords, List.flatMap_eq_nil_iff]
    intro c hc
    have hf : orders.filter (fun o => o.order_id = c.order_number) = [] := by
      rw [List.filter_eq_nil_iff]
      intro o ho hmem
      exact h c hc o ho ((of_decide_eq_true hmem).symm)
    rw [hf, List.map_nil]

/-- C5 counterexample: two contacts referencing one order fan out into
two merged rows, exceeding `min |contacts| |orders| = 1`, so the claimed
cardinality bound is false. -/
theorem C5_counterexample :
    (joinRecords c5_contacts c5_orders).length = 2 ∧
    ¬((joinRecords c5_contacts c5_orders).length ≤
        min c5_contacts.length c5_orders.length) := by
  constructor
  · rfl
  · decide

/-- C5 witness: both conditional parts of the amended theorem fire on
concrete tables — distinct order ids bound the join by the contact count,
and disjoint key sets give the empty join. -/
theorem C5_inner_join_witness :
    (joinRecords c5_contacts c5_orders).length ≤ c5_contacts.length ∧
    joinRecords [sample_contact] [{ sample_order with order_id := "2" }] = [] :=
  ⟨(C5_inner_join c5_contacts c5_orders).2.1 (by decide),
   (C5_inner_join [sample_contact] [{ sample_order with order_id := "2" }]).2.2 (by decide)⟩

/-! ## C9: base-36 decoding -/

lemma base36_not_ws (c : Char) (h : base36_char c = true) : c.isWhitespace = false := by
  by_contra hw
  have hw2 : c.isWhitespace = true := by revert hw; cases c.isWhitespace <;> simp
  simp only [Char.isWhitespace, Bool.or_eq_true, decide_eq_true_eq] at hw2
  rcases hw2 with ((h1 | h1) | h1) | h1 <;> (subst h1; exact absurd h (by decide))

lemma base36_ne_plus (c : Char) (h : base36_char c = true) : ¬(c = '+') :=
  fun he => absurd (he ▸ h) (by decide)

lemma base36_ne_minus (c : Char) (h : base36_char c = true) : ¬(c = '-') :=
  fun he => absurd (he ▸ h) (by decide)

lemma base36_ne_underscore (c : Char) (h : base36_char c = true) : ¬(c = '_') :=
  fun he => absurd (he ▸ h) (by decide)

lemma dropWhile_eq_self_of {p : Char → Bool} (l : List Char)
    (h : ∀ c ∈ l, p c = false) : l.dropWhile p = l := by
  cases l with
  | nil => rfl
  | cons c cs => simp [List.dropWhile_cons, h c (List.mem_cons_self c cs)]

lemma strip_ws_eq_self (l : List Char) (h : ∀ c ∈ l, c.isWhitespace = false) :
    strip_ws l = l := by
  unfold strip_ws
  rw [dropWhile_eq_self_of l h,
      dropWhile_eq_self_of l.reverse (fun c hc => h c (List.mem_reverse.mp hc)),
      List.reverse_reverse]

lemma parse_rest_all_digits (cs : List Char) :
    ∀ acc : Nat, (∀ c ∈ cs, base36_char c = true) →
      parse_rest acc false cs =
        some (cs.foldl (fun a c => a * 36 + (digit_val_36 c).getD 0) acc) := by
  induction cs with
  | nil => intro acc _; rfl
  | cons c cs ih =>
    intro acc h
    have hc : base36_char c = true := h c (List.mem_cons_self c cs)
    obtain ⟨d, hd⟩ := Option.isSome_iff_exists.mp hc
    rw [parse_rest, if_neg (base36_ne_underscore c hc), hd]
    show parse_rest (acc * 36 + d) false cs = _
    rw [List.foldl_cons, hd]
    exact ih (acc * 36 + d) (fun x hx => h x (List.mem_cons_of_mem c hx))

lemma parse_unsigned_all_digits (cs : List Char) (hne : cs ≠ [])
    (h : ∀ c ∈ cs, base36_char c = true) :
    parse_unsigned cs = some (val36 cs) := by
  cases cs with
  | nil => exact absurd rfl hne
  | cons c rest =>
    have hc : base36_char c = true := h c (List.mem_cons_self c rest)
    obtain ⟨d, hd⟩ := Option.isSome_iff_exists.mp hc
    rw [parse_unsigned]
    rw [hd]
    show parse_rest d false rest = some (val36 (c :: rest))
    rw [parse_rest_all_digits rest d (fun x hx => h x (List.mem_cons_of_mem c hx))]
    unfold val36
    rw [List.foldl_cons]
    have hz : (0 : Nat) * 36 + (digit_val_36 c).getD 0 = d := by rw [hd]; simp
    rw [hz]

lemma int36_all_digits (cs : List Char) (hne : cs ≠ [])
    (h : ∀ c ∈ cs, base36_char c = true) :
    int36 cs = some ((val36 cs : Nat) : Int) := by
  unfold int36
  rw [strip_ws_eq_self cs (fun c hc => base36_not_ws c (h c hc))]
  cases cs with
  | nil => exact absurd rfl hne
  | cons c rest =>
    have hc : base36_char c = true := h c (List.mem_cons_self c rest)
    show int36_core c rest = some ((val36 (c :: rest) : Nat) : Int)
    unfold int36_core
    rw [if_neg (base36_ne_plus c hc), if_neg (base36_ne_minus c hc),
        parse_unsigned_all_digits (c :: rest) hne h]
    rfl

lemma normalize_contacts_none (errands : List ContactRecord)
    (h : ∃ e ∈ errands, decode_order_number e.order_number = none) :
    normalize_contacts errands = none := by
  induction errands with
  | nil => obtain ⟨e, he, _⟩ := h; exact absurd he (List.not_mem_nil e)
  | cons c cs ih =>
    obtain ⟨e, he, hd⟩ := h
    rcases List.mem_cons.mp he with he1 | he2
    · subst he1
      simp [normalize_contacts, hd]
    · cases hdc : decode_order_number c.order_number with
      | none => simp [normalize_contacts, hdc]
      | some d => simp [normalize_contacts, hdc, ih ⟨e, he2, hd⟩]

/-- A contact whose order token is not decodable at all. -/
def bad_contact : ContactRecord := { sample_contact with order_number := "!" }

/-- C9 (amended).  The decoder fails on the empty token; every non-empty
token made only of base-36 alphabet characters decodes to the decimal
string of its base-36 value; and a failing token is never silently
dropped — it aborts the whole preprocessing.  (The pure-alphabet
qualification is forced: Python `int(x, 36)` also accepts signs,
surrounding whitespace and underscores between digits, see the
counterexample.) -/
theorem C9_decode_base36 (s : String) :
    decode_order_number "" = none ∧
    (s.toList ≠ [] → (∀ c ∈ s.toList, base36_char c = true) →
      decode_order_number s = some (toString ((val36 s.toList : Nat) : Int))) ∧
    (∀ errands orders, (∃ e ∈ errands, decode_order_number e.order_number = none) →
      _preprocess_data errands orders = none) := by
  refine ⟨rfl, ?_, ?_⟩
  · intro hne h
    unfold decode_order_number
    rw [int36_all_digits s.toList hne h]
    rfl
  · intro errands orders h
    unfold _preprocess_data
    rw [normalize_contacts_none errands h]
    rfl

/-- C9 counterexample: the token `"1_2"` contains `'_'`, a character
outside the base-36 alphabet, yet the normalizer silently decodes it
(to `1 * 36 + 2 = 38`) instead of failing. -/
theorem C9_counterexample :
    decode_order_number "1_2" = some "38" ∧
    base36_char '_' = false ∧
    '_' ∈ "1_2".toList := by
  refine ⟨by rfl, by decide, by decide⟩

/-- C9 witness: a concrete all-alphabet token decodes to its decimal
form, and a concrete malformed token aborts preprocessing. -/
theorem C9_decode_base36_witness :
    decode_order_number "z9" = some "1269" ∧
    _preprocess_data [bad_contact] [] = none := by
  constructor
  · have h := (C9_decode_base36 "z9").2.1 (by decide) (by decide)
    rw [h]
    rfl
  · exact (C9_decode_base36 "").2.2 [bad_contact] []
      ⟨bad_contact, List.mem_singleton_self bad_contact, by rfl⟩

/-! ## C6: action-category derivation and its percentage base -/

lemma value_counts_sum {α : Type} [DecidableEq α] (l : List α) :
    ((value_counts l).map Prod.snd).sum = l.length := by
  unfold value_counts
  rw [List.map_map]
  exact List.sum_map_count_dedup_eq_length l

/-- The merged table with one action-bearing row and one absent-action
row (legal per the data model: `action` may be absent). -/
def c6_df : List MergedRecord :=
  [{ base_merged with errand_action := some ['a'] }, base_merged]

/-- C6 (amended).  `action_category` is derived from `errand_action` by
taking the prefix before the first `:` and then before the first `.`
within it (so the result is a prefix of the action free of both
delimiters, and `"booking.modify:upgrade"` yields `"booking"`); an absent
action yields an absent category and is excluded from the counts — but
the percentage denominator is the total merged row count, absent-action
rows included (not the action-bearing base the claim states). -/
theorem C6_action_category (df : List MergedRecord) :
    (∀ s t : List Char, categorize_errand_action (some s) = some t →
      t <+: s ∧ ∀ c ∈ t, ¬(c = ':') ∧ ¬(c = '.')) ∧
    categorize_errand_action (some "booking.modify:upgrade".toList) =
      some "booking".toList ∧
    categorize_errand_action none = none ∧
    (∀ kc ∈ action_counts df,
      (kc.1, roundQ2 (pct_of (kc.2 : ℚ) (df.length : ℚ))) ∈ action_percentages df) := by
  refine ⟨?_, by decide, rfl, ?_⟩
  · intro s t h
    have ht : t = (s.takeWhile (fun c => c ≠ ':')).takeWhile (fun c => c ≠ '.') := by
      simpa [categorize_errand_action] using h.symm
    subst ht
    refine ⟨(List.takeWhile_prefix _).trans (List.takeWhile_prefix _), ?_⟩
    intro c hc
    have h2 := List.mem_takeWhile_imp hc
    have hc1 : c ∈ s.takeWhile (fun c => decide ¬(c = ':')) :=
      (List.takeWhile_prefix _).subset hc
    have h1 := List.mem_takeWhile_imp hc1
    exact ⟨by simpa using h1, by simpa using h2⟩
  · intro kc hkc
    unfold action_percentages
    exact List.mem_map_of_mem _ hkc

/-- C6 counterexample: on a two-row table with one absent action, the
code reports 50% for the only action category (denominator = all 2 rows),
while the claim's base (absent-action rows excluded) would make it 100%. -/
theorem C6_counterexample :
    action_percentages c6_df = [(['a'], 50)] ∧
    action_percentages_spec_base c6_df = [(['a'], 100)] ∧
    ¬(action_percentages c6_df = action_percentages_spec_base c6_df) := by
  have h1 : action_counts c6_df = [(['a'], 1)] := by decide
  have h2 : ((analyze_errand_categories_table c6_df).filterMap
      (fun r => r.errand_action_category)).length = 1 := by decide
  have h3 : c6_df.length = 2 := by rfl
  have ha : action_percentages c6_df = [(['a'], 50)] := by
    unfold action_percentages
    rw [h1, h3]
    norm_num [pct_of, roundQ2, round_eq]
  have hb : action_percentages_spec_base c6_df = [(['a'], 100)] := by
    unfold action_percentages_spec_base
    rw [h1, h2]
    norm_num [pct_of, roundQ2, round_eq]
  refine ⟨ha, hb, ?_⟩
  rw [ha, hb]
  intro h
  have := List.head_eq_of_cons_eq h
  simp at this

/-- C6 witness: the delimiter-splitting part applied at the concrete
scenario action, and the percentage-base part applied at the concrete
count pair of the two-row table. -/
theorem C6_action_category_witness :
    "booking".toList <+: "booking.modify:upgrade".toList ∧
    ¬(('b' : Char) = ':') ∧
    ((['a'] : List Char), roundQ2 (pct_of ((1 : Nat) : ℚ) (c6_df.length : ℚ))) ∈
      action_percentages c6_df :=
  ⟨((C6_action_category []).1 "booking.modify:upgrade".toList "booking".toList
      (by decide)).1,
   (((C6_action_category []).1 "booking.modify:upgrade".toList "booking".toList
      (by decide)).2 'b' (by decide)).1,
   (C6_action_category c6_df).2.2.2 (['a'], 1) (by decide)⟩

/-! ## C2: percentage sums -/

lemma sum_map_pct {κ : Type} (l : List (κ × Nat)) (T : ℚ) :
    ((l.map (fun kc => (kc.1, pct_of (kc.2 : ℚ) T))).map Prod.snd).sum =
      pct_of (((l.map Prod.snd).sum : ℕ) : ℚ) T := by
  induction l with
  | nil => simp [pct_of]
  | cons kc l ih =>
    simp only [List.map_cons, List.sum_cons]
    rw [ih]
    push_cast
    simp [pct_of, add_div, add_mul]

lemma filterMap_channel_length (df : List MergedRecord)
    (h : ∀ r ∈ df, r.errand_channel ≠ none) :
    (df.filterMap (fun r => r.errand_channel)).length = df.length := by
  induction df with
  | nil => rfl
  | cons r l ih =>
    cases hc : r.errand_channel with
    | none => exact absurd hc (h r (List.mem_cons_self r l))
    | some v =>
      simp [List.filterMap_cons, hc,
        ih (fun x hx => h x (List.mem_cons_of_mem r hx))]

lemma sum_map_pct_q {κ : Type} (l : List (κ × ℚ)) (T : ℚ) :
    ((l.map (fun kc => (kc.1, pct_of kc.2 T))).map Prod.snd).sum =
      pct_of ((l.map Prod.snd).sum) T := by
  induction l with
  | nil => simp [pct_of]
  | cons kc l ih =>
    simp only [List.map_cons, List.sum_cons]
    rw [ih]
    simp [pct_of, add_div, add_mul]

lemma roundQ2_err (x : ℚ) : |roundQ2 x - x| ≤ 1 / 200 := by
  have h := abs_sub_round (x * 100)
  rw [abs_sub_comm] at h
  have he : roundQ2 x - x = (((round (x * 100) : ℤ) : ℚ) - x * 100) / 100 := by
    unfold roundQ2
    ring
  rw [he, abs_div, abs_of_pos (show (0 : ℚ) < 100 by norm_num)]
  linarith

lemma series_sum_round_err {κ : Type} (l : List (κ × Nat)) (g : κ × Nat → ℚ) :
    |series_sum (l.map (fun kc => (kc.1, roundQ2 (g kc)))) -
      series_sum (l.map (fun kc => (kc.1, g kc)))| ≤ (l.length : ℚ) / 200 := by
  induction l with
  | nil => simp [series_sum]
  | cons kc l ih =>
    have h1 := roundQ2_err (g kc)
    have hsplit : series_sum ((kc :: l).map (fun kc => (kc.1, roundQ2 (g kc)))) -
        series_sum ((kc :: l).map (fun kc => (kc.1, g kc))) =
        (roundQ2 (g kc) - g kc) +
        (series_sum (l.map (fun kc => (kc.1, roundQ2 (g kc)))) -
          series_sum (l.map (fun kc => (kc.1, g kc)))) := by
      simp only [List.map_cons, series_sum, List.sum_cons]
      ring
    rw [hsplit]
    have habs := abs_add (roundQ2 (g kc) - g kc)
      (series_sum (l.map (fun kc => (kc.1, roundQ2 (g kc)))) -
        series_sum (l.map (fun kc => (kc.1, g kc))))
    rw [List.length_cons]
    push_cast
    linarith

/-- A distribution divided by the sum of its own counts sums to exactly
100 whenever that sum is non-zero. -/
lemma self_normalized_sum {κ : Type} (counts : List (κ × Nat))
    (h : (counts.map Prod.snd).sum ≠ 0) :
    series_sum (counts.map (fun kc =>
      (kc.1, pct_of (kc.2 : ℚ) ((counts.map Prod.snd).sum : ℚ)))) = 100 := by
  unfold series_sum
  rw [sum_map_pct]
  unfold pct_of
  rw [div_self (by exact_mod_cast h)]
  norm_num

/-- The rounded variant stays within 0.005 per category of 100. -/
lemma self_normalized_round_sum {κ : Type} (counts : List (κ × Nat))
    (h : (counts.map Prod.snd).sum ≠ 0) :
    |series_sum (counts.map (fun kc =>
      (kc.1, roundQ2 (pct_of (kc.2 : ℚ) ((counts.map Prod.snd).sum : ℚ))))) - 100| ≤
      (counts.length : ℚ) / 200 := by
  have h1 := series_sum_round_err counts
    (fun kc => pct_of (kc.2 : ℚ) ((counts.map Prod.snd).sum : ℚ))
  have h2 := self_normalized_sum counts h
  rw [← h2]
  exact h1

/-- A rounded distribution divided by an externally supplied row count
sums to `100 · (sum of counts) / base` within 0.005 per category. -/
lemma rowcount_round_sum {κ : Type} (counts : List (κ × Nat)) (B : Nat) :
    |series_sum (counts.map (fun kc =>
      (kc.1, roundQ2 (pct_of (kc.2 : ℚ) (B : ℚ))))) -
      100 * ((counts.map Prod.snd).sum : ℚ) / (B : ℚ)| ≤ (counts.length : ℚ) / 200 := by
  have h1 := series_sum_round_err counts (fun kc => pct_of (kc.2 : ℚ) (B : ℚ))
  have h2 : series_sum (counts.map (fun kc => (kc.1, pct_of (kc.2 : ℚ) (B : ℚ)))) =
      100 * ((counts.map Prod.snd).sum : ℚ) / (B : ℚ) := by
    unfold series_sum
    rw [sum_map_pct]
    unfold pct_of
    ring
  rw [← h2]
  exact h1

lemma sum_indicator_zero {κ : Type} [DecidableEq κ] (c : κ) :
    ∀ keys : List κ, c ∉ keys →
      (keys.map (fun d => if c = d then 1 else 0)).sum = 0 := by
  intro keys
  induction keys with
  | nil => intro _; rfl
  | cons k ks ih =>
    intro h
    have hck : ¬(c = k) := fun he => h (by rw [he]; exact List.mem_cons_self k ks)
    rw [List.map_cons, List.sum_cons, if_neg hck,
      ih (fun hm => h (List.mem_cons_of_mem k hm))]

lemma sum_indicator_one {κ : Type} [DecidableEq κ] (c : κ) :
    ∀ keys : List κ, keys.Nodup → c ∈ keys →
      (keys.map (fun d => if c = d then 1 else 0)).sum = 1 := by
  intro keys
  induction keys with
  | nil => intro _ h; exact absurd h (List.not_mem_nil c)
  | cons k ks ih =>
    intro hnd h
    rw [List.nodup_cons] at hnd
    rcases List.mem_cons.mp h with h1 | h2
    · rw [List.map_cons, List.sum_cons, if_pos h1,
        sum_indicator_zero c ks (by rw [h1]; exact hnd.1)]
    · have hck : ¬(c = k) := fun he => hnd.1 (he ▸ h2)
      rw [List.map_cons, List.sum_cons, if_neg hck, ih hnd.2 h2]

/-- Filtering by each key of a duplicate-free covering key list
partitions a list. -/
lemma sum_filter_partition {α κ : Type} [DecidableEq κ] (keys : List κ) (key : α → κ)
    (hnd : keys.Nodup) :
    ∀ l : List α, (∀ x ∈ l, key x ∈ keys) →
      (keys.map (fun d => (l.filter (fun x => key x = d)).length)).sum = l.length := by
  intro l
  induction l with
  | nil =>
    intro _
    simp
  | cons x l ih =>
    intro hcov
    have hstep : ∀ d : κ, ((x :: l).filter (fun y => key y = d)).length =
        (if key x = d then 1 else 0) + (l.filter (fun y => key y = d)).length := by
      intro d
      rw [List.filter_cons]
      by_cases hx : key x = d
      · simp [hx]
        omega
      · simp [hx]
    calc (keys.map (fun d => ((x :: l).filter (fun y => key y = d)).length)).sum
        = (keys.map (fun d => (if key x = d then 1 else 0) +
            (l.filter (fun y => key y = d)).length)).sum := by
          exact congrArg List.sum (List.map_congr_left (fun d _ => hstep d))
      _ = (keys.map (fun d => if key x = d then 1 else 0)).sum +
          (keys.map (fun d => (l.filter (fun y => key y = d)).length)).sum := by
          rw [List.sum_map_add]
      _ = 1 + l.length := by
          rw [sum_indicator_one (key x) keys hnd (hcov x (List.mem_cons_self x l)),
            ih (fun y hy => hcov y (List.mem_cons_of_mem x hy))]
      _ = (x :: l).length := by
          rw [List.length_cons]
          omega

lemma day_name_mem (t : Nat) : day_name t ∈ day_order := by
  unfold day_name
  have h7 : t / 24 % 7 < 7 := Nat.mod_lt _ (by norm_num)
  set i := t / 24 % 7 with hi
  interval_cases i <;> decide

/-- Every merged row lands in exactly one weekday bucket, so the
weekday counts sum to the row count. -/
lemma day_analysis_sum (df : List MergedRecord) :
    ((day_analysis df).map Prod.snd).sum = df.length := by
  unfold day_analysis
  rw [List.map_map]
  have hcov : ∀ r ∈ analyze_time_patterns_table df,
      (fun r : MergedRecord => r.day_of_week) r ∈ day_order := by
    intro r hr
    obtain ⟨r0, _, hr0⟩ := List.mem_map.mp hr
    subst hr0
    exact day_name_mem r0.errand_created_at
  have h := sum_filter_partition day_order (fun r : MergedRecord => r.day_of_week)
    (by decide) (analyze_time_patterns_table df) hcov
  rw [show (analyze_time_patterns_table df).length = df.length from
    List.length_map _ _] at h
  exact h

/-- Same two-row table as the C6 example, named separately for the C2
counterexample. -/
def c2_df : List MergedRecord :=
  [{ base_merged with errand_action := some ['a'] }, base_merged]

set_option maxHeartbeats 1600000 in
/-- C2 (amended).  The sum of a module's reported percentages depends on
its normalization.  Unrounded distributions divided by the sum of their
own counts — volume, category, type, and the two financial series — sum
to exactly 100 whenever that sum is non-zero.  Rounded distributions
divided by the sum of their own counts — day-of-week, hour, journey,
booking, route — sum to 100 within 0.005 per reported category (e.g.
three equal days give 99.99), so the claimed ±0.1 holds only when the
category count is at most 20.  Distributions whose denominator is a row
count while `value_counts` drops missing values — channel over all rows,
action over all rows, cancellation/change reasons over the
canceled/changed rows — sum to `100 · (rows with the field present) /
(base rows)` (within the same rounding allowance for the rounded ones),
which falls short of 100 whenever the field is missing on a base row. -/
theorem C2_percentage_sums (df : List MergedRecord) :
    (df ≠ [] → series_sum (contacts_per_order_percentages df) = 100) ∧
    (((category_distribution df).map Prod.snd).sum ≠ 0 →
      series_sum (category_percentage df) = 100) ∧
    (((value_counts (type_pairs df)).map Prod.snd).sum ≠ 0 →
      series_sum (type_percentage df) = 100) ∧
    (((value_counts (df.filterMap (fun r => r.Customer_Group_Type))).map Prod.snd).sum ≠ 0 →
      series_sum (customer_group_percentages df) = 100) ∧
    (((revenue_by_group df).map Prod.snd).sum ≠ 0 →
      series_sum (revenue_percentages df) = 100) ∧
    (df ≠ [] → series_sum (channel_percentages df) =
      100 * ((df.filterMap (fun r => r.errand_channel)).length : ℚ) / (df.length : ℚ)) ∧
    (df ≠ [] → (∀ r ∈ df, r.errand_channel ≠ none) →
      series_sum (channel_percentages df) = 100) ∧
    |series_sum (action_percentages df) -
      100 * (((analyze_errand_categories_table df).filterMap
        (fun r => r.errand_action_category)).length : ℚ) / (df.length : ℚ)| ≤
      ((action_counts df).length : ℚ) / 200 ∧
    (df ≠ [] → |series_sum (day_percentages df) - 100| ≤ 7 / 200) ∧
    (((hour_analysis df).map Prod.snd).sum ≠ 0 →
      |series_sum (hour_percentages df) - 100| ≤ ((hour_analysis df).length : ℚ) / 200) ∧
    (((value_counts (df.filterMap (fun r => r.Journey_Type_ID))).map Prod.snd).sum ≠ 0 →
      |series_sum (journey_percentage df) - 100| ≤
        ((value_counts (df.filterMap (fun r => r.Journey_Type_ID))).length : ℚ) / 200) ∧
    (((value_counts (df.filterMap (fun r => r.booking_system_source_type))).map
        Prod.snd).sum ≠ 0 →
      |series_sum (booking_system_percentage df) - 100| ≤
        ((value_counts (df.filterMap
          (fun r => r.booking_system_source_type))).length : ℚ) / 200) ∧
    (((value_counts (route_pairs df)).map Prod.snd).sum ≠ 0 →
      |series_sum (route_percentages df) - 100| ≤
        ((value_counts (route_pairs df)).length : ℚ) / 200) ∧
    |series_sum (cancel_percentages df) -
      100 * (((canceled_rows df).filterMap (fun r => r.cancel_reason)).length : ℚ) /
        ((canceled_rows df).length : ℚ)| ≤
      ((value_counts ((canceled_rows df).filterMap
        (fun r => r.cancel_reason))).length : ℚ) / 200 ∧
    |series_sum (change_percentages df) -
      100 * (((changed_rows df).filterMap (fun r => r.change_reason)).length : ℚ) /
        ((changed_rows df).length : ℚ)| ≤
      ((value_counts ((changed_rows df).filterMap
        (fun r => r.change_reason))).length : ℚ) / 200 := by
  have hchan : series_sum (channel_percentages df) =
      pct_of (((df.filterMap (fun r => r.errand_channel)).length : ℕ) : ℚ)
        ((df.length : ℕ) : ℚ) := by
    unfold series_sum channel_percentages
    rw [sum_map_pct (channel_distribution df) ((df.length : ℕ) : ℚ)]
    unfold channel_distribution
    rw [value_counts_sum]
  refine ⟨?_, ?_, ?_, ?_, ?_, ?_, ?_, ?_, ?_, ?_, ?_, ?_, ?_, ?_, ?_⟩
  · intro hne
    have hN : (contacts_per_order df).length ≠ 0 := by
      unfold contacts_per_order
      rw [List.length_map]
      simp only [ne_eq, List.length_eq_zero, List.dedup_eq_nil, List.map_eq_nil_iff]
      exact hne
    unfold contacts_per_order_percentages series_sum
    rw [sum_map_pct, value_counts_sum, List.length_map]
    unfold pct_of
    rw [div_self (by exact_mod_cast hN)]
    norm_num
  · intro h
    unfold category_percentage
    exact self_normalized_sum (category_distribution df) h
  · intro h
    unfold type_percentage
    exact self_normalized_sum (value_counts (type_pairs df)) h
  · intro h
    unfold customer_group_percentages
    exact self_normalized_sum
      (value_counts (df.filterMap (fun r => r.Customer_Group_Type))) h
  · intro h
    unfold revenue_percentages series_sum
    rw [sum_map_pct_q]
    unfold pct_of
    rw [div_self h]
    norm_num
  · intro _
    rw [hchan]
    unfold pct_of
    ring
  · intro hne hall
    rw [hchan, filterMap_channel_length df hall]
    unfold pct_of
    rw [div_self (by
      simp only [ne_eq, Nat.cast_eq_zero, List.length_eq_zero]
      exact hne)]
    norm_num
  · have h1 := rowcount_round_sum (action_counts df) df.length
    have hs : ((action_counts df).map Prod.snd).sum =
        ((analyze_errand_categories_table df).filterMap
          (fun r => r.errand_action_category)).length := by
      unfold action_counts
      exact value_counts_sum _
    rw [hs] at h1
    unfold action_percentages
    exact h1
  · intro hne
    have hsum : ((day_analysis df).map Prod.snd).sum ≠ 0 := by
      rw [day_analysis_sum]
      simp only [ne_eq, List.length_eq_zero]
      exact hne
    have h1 := self_normalized_round_sum (day_analysis df) hsum
    have hlen : (day_analysis df).length = 7 := by
      unfold day_analysis
      rw [List.length_map]
      rfl
    rw [hlen] at h1
    unfold day_percentages
    exact_mod_cast h1
  · intro h
    have h1 := self_normalized_round_sum (hour_analysis df) h
    unfold hour_percentages
    exact h1
  · intro h
    have h1 := self_normalized_round_sum
      (value_counts (df.filterMap (fun r => r.Journey_Type_ID))) h
    unfold journey_percentage
    exact h1
  · intro h
    have h1 := self_normalized_round_sum
      (value_counts (df.filterMap (fun r => r.booking_system_source_type))) h
    unfold booking_system_percentage
    exact h1
  · intro h
    have h1 := self_normalized_round_sum (value_counts (route_pairs df)) h
    unfold route_percentages
    exact h1
  · have h1 := rowcount_round_sum
      (value_counts ((canceled_rows df).filterMap (fun r => r.cancel_reason)))
      (canceled_rows df).length
    have hs := value_counts_sum ((canceled_rows df).filterMap (fun r => r.cancel_reason))
    rw [hs] at h1
    unfold cancel_percentages
    exact h1
  · have h1 := rowcount_round_sum
      (value_counts ((changed_rows df).filterMap (fun r => r.change_reason)))
      (changed_rows df).length
    have hs := value_counts_sum ((changed_rows df).filterMap (fun r => r.change_reason))
    rw [hs] at h1
    unfold change_percentages
    exact h1

/-- C2 counterexample: on a table legal for the data model (one row with
an absent `errand_action`), the action-distribution percentages sum to
50, far outside 100 ± 0.1, because the counts exclude the absent-action
row while the denominator counts it. -/
theorem C2_counterexample :
    series_sum (action_percentages c2_df) = 50 ∧
    ¬(|series_sum (action_percentages c2_df) - 100| ≤ 1 / 10) := by
  have h1 : action_counts c2_df = [(['a'], 1)] := by decide
  have h : series_sum (action_percentages c2_df) = 50 := by
    unfold series_sum action_percentages
    rw [h1]
    norm_num [c2_df, pct_of, roundQ2, round_eq]
  exact ⟨h, by rw [h]; norm_num⟩

/-- A one-row table with every field present and non-zero revenue, on
which all conditional parts of the amended C2 theorem fire. -/
def c2w_df : List MergedRecord := [{ base_merged with Revenue := 10 }]

/-- C2 witness: every conditional part of the amended theorem applied to
a concrete fully-populated table (plus the channel formula on the
two-row table with a missing action). -/
theorem C2_percentage_sums_witness :
    series_sum (contacts_per_order_percentages c2w_df) = 100 ∧
    series_sum (category_percentage c2w_df) = 100 ∧
    series_sum (type_percentage c2w_df) = 100 ∧
    series_sum (customer_group_percentages c2w_df) = 100 ∧
    series_sum (revenue_percentages c2w_df) = 100 ∧
    series_sum (channel_percentages c2w_df) = 100 ∧
    series_sum (channel_percentages c2_df) =
      100 * ((c2_df.filterMap (fun r => r.errand_channel)).length : ℚ) /
        (c2_df.length : ℚ) ∧
    |series_sum (day_percentages c2w_df) - 100| ≤ 7 / 200 ∧
    |series_sum (hour_percentages c2w_df) - 100| ≤
      ((hour_analysis c2w_df).length : ℚ) / 200 ∧
    |series_sum (journey_percentage c2w_df) - 100| ≤
      ((value_counts (c2w_df.filterMap (fun r => r.Journey_Type_ID))).length : ℚ) / 200 ∧
    |series_sum (booking_system_percentage c2w_df) - 100| ≤
      ((value_counts (c2w_df.filterMap
        (fun r => r.booking_system_source_type))).length : ℚ) / 200 ∧
    |series_sum (route_percentages c2w_df) - 100| ≤
      ((value_counts (route_pairs c2w_df)).length : ℚ) / 200 := by
  have hrev : ((revenue_by_group c2w_df).map Prod.snd).sum ≠ 0 := by
    have h0 : c2w_df.filterMap (fun r => r.Customer_Group_Type) = ["leisure"] := by decide
    unfold revenue_by_group
    rw [h0]
    norm_num [c2w_df, base_merged]
  refine ⟨(C2_percentage_sums c2w_df).1 (by decide),
    (C2_percentage_sums c2w_df).2.1 (by decide),
    (C2_percentage_sums c2w_df).2.2.1 (by decide),
    (C2_percentage_sums c2w_df).2.2.2.1 (by decide),
    (C2_percentage_sums c2w_df).2.2.2.2.1 hrev,
    (C2_percentage_sums c2w_df).2.2.2.2.2.2.1 (by decide) (by decide),
    (C2_percentage_sums c2_df).2.2.2.2.2.1 (by decide),
    (C2_percentage_sums c2w_df).2.2.2.2.2.2.2.2.1 (by decide),
    (C2_percentage_sums c2w_df).2.2.2.2.2.2.2.2.2.1 (by decide),
    (C2_percentage_sums c2w_df).2.2.2.2.2.2.2.2.2.2.1 (by decide),
    (C2_percentage_sums c2w_df).2.2.2.2.2.2.2.2.2.2.2.1 (by decide),
    (C2_percentage_sums c2w_df).2.2.2.2.2.2.2.2.2.2.2.2.1 (by decide)⟩

/-! ## C4: top-N selection and its tie-break -/

lemma filter_orderedInsert {κ : Type} (v : ℚ) (x : κ × ℚ) (M : List (κ × ℚ)) :
    (List.orderedInsert by_value_desc x M).filter (fun y => y.2 = v) =
      if x.2 = v then x :: M.filter (fun y => y.2 = v)
      else M.filter (fun y => y.2 = v) := by
  induction M with
  | nil =>
    simp only [List.orderedInsert, List.filter_cons, List.filter_nil]
    by_cases hx : x.2 = v
    · simp [hx]
    · simp [hx]
  | cons b M ih =>
    rw [List.orderedInsert]
    by_cases hr : by_value_desc x b
    · rw [if_pos hr]
      by_cases hx : x.2 = v
      · simp [List.filter_cons, hx]
      · simp [List.filter_cons, hx]
    · rw [if_neg hr, List.filter_cons]
      by_cases hb : b.2 = v
      · by_cases hx : x.2 = v
        · exact absurd (show by_value_desc x b from by
            unfold by_value_desc; rw [hb, hx]) hr
        · simp [hb, ih, hx, List.filter_cons]
      · by_cases hx : x.2 = v
        · simp [hb, ih, hx, List.filter_cons]
        · simp [hb, ih, hx, List.filter_cons]

lemma sort_values_desc_stable {κ : Type} (v : ℚ) (l : List (κ × ℚ)) :
    (sort_values_desc l).filter (fun y => y.2 = v) = l.filter (fun y => y.2 = v) := by
  induction l with
  | nil => rfl
  | cons x l ih =>
    unfold sort_values_desc at ih ⊢
    rw [List.insertionSort, filter_orderedInsert, ih, List.filter_cons]
    by_cases hx : x.2 = v
    · simp [hx]
    · simp [hx]

/-- C4 (amended).  Top-N selection returns the first n entries of a
descending sorted permutation of the series (so it delivers the n
largest values, `min n |series|` of them) — this much holds for any
correct sort, numpy's unstable quicksort included.  A tie-order guarantee
exists only for series short enough (at most 15 entries) to fall in
numpy's insertion-sort regime, where the sort is stable: there, ties keep
the order of the series being sorted — for the weekday ranking (7
entries, as the last conjunct shows for every table) that is the fixed
Monday-first groupby key order, not the order in which keys first
appeared in the input rows.  For longer series (hours, routes) no
tie-order property is asserted. -/
theorem C4_top_n_ranking (κ : Type) (l : List (κ × ℚ)) (n : Nat) (v : ℚ) :
    (sort_values_desc l).Perm l ∧
    List.Sorted by_value_desc (sort_values_desc l) ∧
    (top_n n l).length = min n l.length ∧
    (top_n n l) <+: sort_values_desc l ∧
    (l.length ≤ 15 →
      (sort_values_desc l).filter (fun y => y.2 = v) = l.filter (fun y => y.2 = v)) ∧
    (∀ df : List MergedRecord, (day_percentages df).length ≤ 15) := by
  refine ⟨List.perm_insertionSort _ l, List.sorted_insertionSort _ l, ?_,
    List.take_prefix n _, fun _ => sort_values_desc_stable v l, ?_⟩
  · rw [top_n, List.length_take,
      show (sort_values_desc l).length = l.length from
        (List.perm_insertionSort by_value_desc l).length_eq]
  · intro df
    unfold day_percentages day_analysis
    rw [List.length_map, List.length_map]
    decide

/-- The merged table whose rows first mention Tuesday, then Monday. -/
def c4_df : List MergedRecord :=
  [{ base_merged with errand_created_at := 24, day_of_week := "Tuesday" }, base_merged]

/-- C4 counterexample: on rows whose days first appear in the order
[Tuesday, Monday] with tied counts, the top-2 weekday ranking returns
[Monday, Tuesday] — the groupby key order, not the claimed
first-appearance-in-input order. -/
theorem C4_counterexample :
    (top_weekdays c4_df).map Prod.fst = ["Monday", "Tuesday"] ∧
    first_appearance_days c4_df = ["Tuesday", "Monday"] ∧
    ¬((top_weekdays c4_df).map Prod.fst = ["Tuesday", "Monday"]) := by
  have hd : day_percentages c4_df =
      [("Monday", 50), ("Tuesday", 50), ("Wednesday", 0), ("Thursday", 0),
       ("Friday", 0), ("Saturday", 0), ("Sunday", 0)] := by
    have h1 : day_analysis c4_df =
        [("Monday", 1), ("Tuesday", 1), ("Wednesday", 0), ("Thursday", 0),
         ("Friday", 0), ("Saturday", 0), ("Sunday", 0)] := by decide
    unfold day_percentages
    rw [h1]
    norm_num [pct_of, roundQ2, round_eq]
  have ht : (top_weekdays c4_df).map Prod.fst = ["Monday", "Tuesday"] := by
    unfold top_weekdays
    rw [hd]
    decide
  exact ⟨ht, by decide, by rw [ht]; decide⟩

/-- C4 witness: the tie-order part of the amended theorem applied to the
7-entry weekday series of the concrete table, its length hypothesis
discharged by the theorem's own weekday-length bound. -/
theorem C4_top_n_ranking_witness :
    (sort_values_desc (day_percentages c4_df)).filter (fun y => y.2 = 50) =
      (day_percentages c4_df).filter (fun y => y.2 = 50) :=
  (C4_top_n_ranking String (day_percentages c4_df) 2 50).2.2.2.2.1
    ((C4_top_n_ranking String [] 0 0).2.2.2.2.2 c4_df)

/-! ## C8: who writes the merged table -/

/-- A one-row table whose action still lacks a derived category. -/
def c8_df : List MergedRecord :=
  [{ base_merged with errand_action := some ['b', ':', 'x'] }]

/-- C8 counterexample: running the category/action module (or the
temporal module) changes the merged table — it writes the derived
`errand_action_category` (resp. `hour_of_day`) column — so the
reclassification stage is not the only writer after construction. -/
theorem C8_counterexample :
    ¬(analyze_errand_categories_table c8_df = c8_df) ∧
    ¬(analyze_time_patterns_table c8_df = c8_df) := by
  constructor <;> decide

/-- C8 (amended).  After construction the merged table is written by the
category/action module (derived column `errand_action_category`), the
temporal module (derived columns `day_of_week`, `hour_of_day`) and the
reclassification steps (flags `Is_Canceled`, `Is_Changed`); each writer
preserves the row count and every other field of every row. -/
theorem C8_table_writers (df : List MergedRecord) (r : MergedRecord) :
    (analyze_errand_categories_table df).length = df.length ∧
    { write_action_category r with
        errand_action_category := r.errand_action_category } = r ∧
    (analyze_time_patterns_table df).length = df.length ∧
    { write_time_columns r with
        day_of_week := r.day_of_week, hour_of_day := r.hour_of_day } = r ∧
    (reclassify df).length = df.length ∧
    { reclassify_record r with
        Is_Canceled := r.Is_Canceled, Is_Changed := r.Is_Changed } = r := by
  refine ⟨List.length_map _ _, rfl, List.length_map _ _, rfl, List.length_map _ _, ?_⟩
  unfold reclassify_record reclassify_change reclassify_cancel
  split_ifs <;> rfl

/-! ## C3: orchestrator failure handling -/

lemma run_modules_error {δ ρ : Type}
    (mods : List (String × (δ → Except String ρ))) (df : δ)
    (h : ∃ m ∈ mods, ∃ e, m.2 df = Except.error e) :
    ∃ e2, run_modules mods df = Except.error e2 := by
  induction mods with
  | nil => obtain ⟨m, hm, _⟩ := h; exact absurd hm (List.not_mem_nil m)
  | cons p rest ih =>
    obtain ⟨m, hm, e, he⟩ := h
    rcases List.mem_cons.mp hm with hm1 | hm2
    · subst hm1
      exact ⟨e, by rw [run_modules, he]⟩
    · cases hf : p.2 df with
      | error e3 => exact ⟨e3, by rw [run_modules, hf]⟩
      | ok r =>
        obtain ⟨e2, h2⟩ := ih ⟨m, hm2, e, he⟩
        exact ⟨e2, by rw [run_modules, hf, h2]⟩

lemma run_modules_ok_keys {δ ρ : Type}
    (mods : List (String × (δ → Except String ρ))) (df : δ)
    (b : List (String × ρ)) (h : run_modules mods df = Except.ok b) :
    b.map Prod.fst = mods.map Prod.fst := by
  induction mods generalizing b with
  | nil =>
    rw [run_modules] at h
    cases h
    rfl
  | cons p rest ih =>
    rw [run_modules] at h
    cases hf : p.2 df with
    | error e => rw [hf] at h; cases h
    | ok r =>
      rw [hf] at h
      cases hrest : run_modules rest df with
      | error e => rw [hrest] at h; cases h
      | ok tl =>
        rw [hrest] at h
        cases h
        rw [List.map_cons, List.map_cons, ih tl hrest]

/-- C3 (amended).  If any module raises, the single `try/except` in
`generate_all_analyses` catches the exception and returns no results at
all (`None`); it never returns a partial bundle — whenever a bundle is
returned, it carries every module's key. -/
theorem C3_orchestrator {δ ρ : Type}
    (mods : List (String × (δ → Except String ρ))) (df : δ) :
    ((∃ m ∈ mods, ∃ e, m.2 df = Except.error e) →
      generate_all_analyses mods df = none) ∧
    (∀ b, generate_all_analyses mods df = some b →
      b.map Prod.fst = mods.map Prod.fst) := by
  constructor
  · intro h
    obtain ⟨e2, h2⟩ := run_modules_error mods df h
    unfold generate_all_analyses
    rw [h2]
  · intro b hb
    unfold generate_all_analyses at hb
    cases hr : run_modules mods df with
    | error e => rw [hr] at hb; cases hb
    | ok l =>
      rw [hr] at hb
      cases hb
      exact run_modules_ok_keys mods df b hr

/-- A module that raises on every input. -/
def failing_module : List MergedRecord → Except String (List (String × ℚ)) :=
  fun _ => Except.error "boom"

/-- A module that computes the channel distribution, never raising. -/
def channel_module : List MergedRecord → Except String (List (String × ℚ)) :=
  fun df => Except.ok (channel_percentages df)

/-- A two-module list whose first module fails. -/
def c3_mods : List (String × (List MergedRecord → Except String (List (String × ℚ)))) :=
  [("avg_contacts", failing_module), ("channel_dist", channel_module)]

/-- C3 counterexample: one module raises while the other succeeds on the
same input, yet the orchestrator returns `none` — the succeeding module's
result is not delivered, so no partial bundle exists. -/
theorem C3_counterexample :
    failing_module [] = Except.error "boom" ∧
    channel_module [] = Except.ok [] ∧
    generate_all_analyses c3_mods [] = none :=
  ⟨rfl, rfl, rfl⟩

/-- C3 witness: the error-propagation half of the amended theorem applied
to the concrete module list, and the all-keys half applied to the
no-failure sublist. -/
theorem C3_orchestrator_witness :
    generate_all_analyses c3_mods ([] : List MergedRecord) = none ∧
    (["channel_dist"] : List String) = ["channel_dist"] :=
  ⟨(C3_orchestrator c3_mods []).1
      ⟨("avg_contacts", failing_module), List.mem_cons_self _ _, "boom", rfl⟩,
   (C3_orchestrator [("channel_dist", channel_module)] []).2 [("channel_dist", [])] rfl⟩

/-! ## C7: empty-join behavior -/

/-- C7.  When the join is empty, every module's distribution is empty (or
`none` for the mean, mirroring the NaN pandas produces), the day-of-week
distribution is all zeros, and the percentage helper returns the explicit
zero marker on a zero denominator instead of propagating a fault. -/
theorem C7_empty_join (contacts : List ContactRecord) (orders : List OrderRecord)
    (h : joinRecords contacts orders = []) :
    average_contacts (joinRecords contacts orders) = none ∧
    channel_percentages (joinRecords contacts orders) = [] ∧
    category_percentage (joinRecords contacts orders) = [] ∧
    action_percentages (joinRecords contacts orders) = [] ∧
    day_percentages (joinRecords contacts orders) = day_order.map (fun d => (d, 0)) ∧
    journey_percentage (joinRecords contacts orders) = [] ∧
    booking_system_percentage (joinRecords contacts orders) = [] ∧
    cancel_percentages (joinRecords contacts orders) = [] ∧
    change_percentages (joinRecords contacts orders) = [] ∧
    revenue_percentages (joinRecords contacts orders) = [] ∧
    customer_group_percentages (joinRecords contacts orders) = [] ∧
    (∀ c : ℚ, pct_of c 0 = 0) := by
  rw [h]
  refine ⟨rfl, rfl, rfl, rfl, ?_, rfl, rfl, rfl, rfl, rfl, rfl, ?_⟩
  · have h1 : day_analysis [] = day_order.map (fun d => (d, 0)) := by decide
    unfold day_percentages
    rw [h1]
    norm_num [day_order, pct_of, roundQ2, round_eq]
  · intro c
    simp [pct_of]

/-- C7 witness: a concrete disjoint-key input producing the empty join. -/
theorem C7_empty_join_witness :
    average_contacts
      (joinRecords [sample_contact] [{ sample_order with order_id := "9" }]) = none :=
  (C7_empty_join [sample_contact] [{ sample_order with order_id := "9" }] (by decide)).1

/-! ## C10: determinism of the whole pipeline -/

/-- C10.  The pipeline is a pure function of the two input record sets:
two runs on equal inputs produce equal result bundles.  The embedding of
preprocessing, reclassification and every metric module takes no input
other than the two tables (no clock, randomness or environment), which is
what the determinism of the source computation rests on. -/
theorem C10_determinism (e1 e2 : List ContactRecord) (o1 o2 : List OrderRecord)
    (h1 : e1 = e2) (h2 : o1 = o2) :
    run_pipeline e1 o1 = run_pipeline e2 o2 := by
  subst h1
  subst h2
  rfl

/-- C10 witness: two runs on a concrete input agree. -/
theorem C10_determinism_witness :
    run_pipeline [sample_contact] [sample_order] =
      run_pipeline [sample_contact] [sample_order] :=
  C10_determinism [sample_contact] [sample_contact] [sample_order] [sample_order] rfl rfl

end CSA
